import Mathlib

/-!
Verification of the proactive-talk scheduling engine.

Shallow embedding of `src/trigger_controller.py` (the rate limiter) and the
error-handling / retry / target-selection parts of `src/proactive_manager.py`.
Dates (`strftime("%Y-%m-%d")` strings) are abstracted to natural numbers;
timestamps used for interval arithmetic are rationals (hours for the trigger
controller, minutes for the health tracker, matching the units each piece of
code computes with).  Mutating Python methods become functions returning the
new state (paired with the returned value when there is one).
-/

/-- Wall-clock time as the code observes it: the calendar date (abstracted to a
natural number) together with the absolute timestamp in hours used for
interval arithmetic (`datetime.now()`). -/
structure PyTime where
  date : Nat
  ts : ℚ
deriving DecidableEq

/-- The two trigger kinds handled by `TriggerController`. -/
inductive TriggerKind where
  | mood
  | random
deriving DecidableEq

/-- Frequency-control configuration read in `TriggerController.__init__`
(`max_daily_triggers`, `mood_max_daily`, `random_max_daily`,
`min_interval_hours`). -/
structure FreqConfig where
  max_daily_triggers : Nat
  mood_max_daily : Nat
  random_max_daily : Nat
  min_interval_hours : ℚ
deriving DecidableEq

/-- The persisted per-day record `TriggerController._state`. -/
structure TriggerState where
  today : Nat
  mood_triggers_today : Nat
  random_triggers_today : Nat
  total_triggers_today : Nat
  last_trigger_time : Option ℚ
  last_mood_trigger : Option ℚ
  last_random_trigger : Option ℚ
deriving DecidableEq

/-- `TriggerController._create_new_day_state`. -/
def createNewDayState (today : Nat) : TriggerState :=
  { today := today
    mood_triggers_today := 0
    random_triggers_today := 0
    total_triggers_today := 0
    last_trigger_time := none
    last_mood_trigger := none
    last_random_trigger := none }

/-- `TriggerController._check_new_day`: replace the record with a fresh zeroed
one when the stored date differs from the current date. -/
def checkNewDay (st : TriggerState) (now : PyTime) : TriggerState :=
  if st.today ≠ now.date then createNewDayState now.date else st

/-- `TriggerController._check_min_interval`: true when there is no recorded
last trigger, or when the elapsed hours since it reach the configured
minimum. -/
def checkMinInterval (cfg : FreqConfig) (st : TriggerState) (now : PyTime) : Bool :=
  match st.last_trigger_time with
  | none => true
  | some t => if now.ts - t < cfg.min_interval_hours then false else true

/-- `TriggerController.can_trigger_mood`; the second component is the state
left behind by the `_check_new_day` rollover. -/
def canTriggerMood (cfg : FreqConfig) (st0 : TriggerState) (now : PyTime) :
    Bool × TriggerState :=
  let st := checkNewDay st0 now
  if cfg.mood_max_daily ≤ st.mood_triggers_today then (false, st)
  else if cfg.max_daily_triggers ≤ st.total_triggers_today then (false, st)
  else if checkMinInterval cfg st now = false then (false, st)
  else (true, st)

/-- `TriggerController.can_trigger_random`. -/
def canTriggerRandom (cfg : FreqConfig) (st0 : TriggerState) (now : PyTime) :
    Bool × TriggerState :=
  let st := checkNewDay st0 now
  if cfg.random_max_daily ≤ st.random_triggers_today then (false, st)
  else if cfg.max_daily_triggers ≤ st.total_triggers_today then (false, st)
  else if checkMinInterval cfg st now = false then (false, st)
  else (true, st)

/-- Kind dispatch over the two `can_trigger_*` methods. -/
def canTrigger (cfg : FreqConfig) (k : TriggerKind) (st : TriggerState) (now : PyTime) :
    Bool × TriggerState :=
  match k with
  | .mood => canTriggerMood cfg st now
  | .random => canTriggerRandom cfg st now

/-- `TriggerController.record_mood_trigger`. -/
def recordMoodTrigger (st0 : TriggerState) (now : PyTime) : TriggerState :=
  let st := checkNewDay st0 now
  { st with
    mood_triggers_today := st.mood_triggers_today + 1
    total_triggers_today := st.total_triggers_today + 1
    last_trigger_time := some now.ts
    last_mood_trigger := some now.ts }

/-- `TriggerController.record_random_trigger`. -/
def recordRandomTrigger (st0 : TriggerState) (now : PyTime) : TriggerState :=
  let st := checkNewDay st0 now
  { st with
    random_triggers_today := st.random_triggers_today + 1
    total_triggers_today := st.total_triggers_today + 1
    last_trigger_time := some now.ts
    last_random_trigger := some now.ts }

/-- Kind dispatch over the two `record_*_trigger` methods. -/
def recordTrigger (k : TriggerKind) (st : TriggerState) (now : PyTime) : TriggerState :=
  match k with
  | .mood => recordMoodTrigger st now
  | .random => recordRandomTrigger st now

/-- The dictionary returned by `TriggerController.get_daily_summary`. -/
structure DailySummary where
  date : Nat
  total_triggers : Nat
  mood_triggers : Nat
  random_triggers : Nat
  last_trigger : Option ℚ
  limit_total : Nat
  limit_mood : Nat
  limit_random : Nat
deriving DecidableEq

/-- `TriggerController.get_daily_summary`; runs `_check_new_day` first, so the
state component is the rolled-forward record. -/
def getDailySummary (cfg : FreqConfig) (st0 : TriggerState) (now : PyTime) :
    DailySummary × TriggerState :=
  let st := checkNewDay st0 now
  ({ date := st.today
     total_triggers := st.total_triggers_today
     mood_triggers := st.mood_triggers_today
     random_triggers := st.random_triggers_today
     last_trigger := st.last_trigger_time
     limit_total := cfg.max_daily_triggers
     limit_mood := cfg.mood_max_daily
     limit_random := cfg.random_max_daily }, st)

/-- Per-kind count of triggers today (spec shorthand `countToday(K)`). -/
def countToday (k : TriggerKind) (st : TriggerState) : Nat :=
  match k with
  | .mood => st.mood_triggers_today
  | .random => st.random_triggers_today

/-- Per-kind daily cap (spec shorthand `capK`). -/
def capOf (cfg : FreqConfig) (k : TriggerKind) : Nat :=
  match k with
  | .mood => cfg.mood_max_daily
  | .random => cfg.random_max_daily

/-- The default frequency configuration of `TriggerController.__init__`:
global cap 5, mood cap 2, random cap 3, minimum interval 2 hours. -/
def fcDefault : FreqConfig :=
  { max_daily_triggers := 5
    mood_max_daily := 2
    random_max_daily := 3
    min_interval_hours := 2 }

/-- Example record of date 0 whose total count has exhausted the global cap of
`fcDefault`. -/
def stBlocked : TriggerState :=
  { today := 0
    mood_triggers_today := 2
    random_triggers_today := 3
    total_triggers_today := 5
    last_trigger_time := some 0
    last_mood_trigger := some 0
    last_random_trigger := some 0 }

/-- Whole-state invariant: the total-today counter is the sum of the two
per-kind counters. -/
def counterInv (st : TriggerState) : Prop :=
  st.total_triggers_today = st.mood_triggers_today + st.random_triggers_today

/-- States reachable from a freshly created day record through the
`TriggerController` operations. -/
inductive Reachable (cfg : FreqConfig) : TriggerState → Prop where
  | create (d : Nat) : Reachable cfg (createNewDayState d)
  | canTrig (k : TriggerKind) (now : PyTime) {st : TriggerState} :
      Reachable cfg st → Reachable cfg (canTrigger cfg k st now).2
  | record (k : TriggerKind) (now : PyTime) {st : TriggerState} :
      Reachable cfg st → Reachable cfg (recordTrigger k st now)
  | summary (now : PyTime) {st : TriggerState} :
      Reachable cfg st → Reachable cfg (getDailySummary cfg st now).2

/-- Error-handling configuration read in `ProactiveManager.__init__` from the
`error_handling` section. -/
structure ErrorConfig where
  max_retry_attempts : Nat
  retry_delay_seconds : ℚ
  fallback_enabled : Bool
  stop_on_consecutive_failures : Nat
  error_cooldown_minutes : ℚ
  safe_mode : Bool
deriving DecidableEq

/-- The error-tracking fields of `ProactiveManager` (`consecutive_failures`,
`last_error_time`, `error_types`, `is_in_cooldown`, `total_attempts`,
`total_successes`).  Timestamps are rationals measured in minutes, the unit
the cooldown arithmetic uses. -/
structure HealthState where
  consecutive_failures : Nat
  last_error_time : Option ℚ
  error_types : String → Nat
  is_in_cooldown : Bool
  total_attempts : Nat
  total_successes : Nat

/-- The initial error-tracking state set in `ProactiveManager.__init__`. -/
def healthInit : HealthState :=
  { consecutive_failures := 0
    last_error_time := none
    error_types := fun _ => 0
    is_in_cooldown := false
    total_attempts := 0
    total_successes := 0 }

/-- The success rate computed in `_is_system_healthy`:
`total_successes / max(total_attempts, 1)`. -/
def successRate (st : HealthState) : ℚ :=
  (st.total_successes : ℚ) / ((max st.total_attempts 1 : Nat) : ℚ)

/-- `ProactiveManager._record_error`: bumps the per-category tally and the
consecutive-failure count, stamps the error time, and sets the cooldown flag
when the incremented count reaches the hard-coded constant 5. -/
def recordError (cfg : ErrorConfig) (st : HealthState) (e : String) (now : ℚ) :
    HealthState :=
  let cf := st.consecutive_failures + 1
  { st with
    error_types := fun k => if k = e then st.error_types k + 1 else st.error_types k
    consecutive_failures := cf
    last_error_time := some now
    is_in_cooldown := if 5 ≤ cf then true else st.is_in_cooldown }

/-- `ProactiveManager._record_success`: resets the consecutive-failure count,
bumps the lifetime success count, and clears the cooldown flag. -/
def recordSuccess (st : HealthState) : HealthState :=
  { st with
    consecutive_failures := 0
    total_successes := st.total_successes + 1
    is_in_cooldown := false }

/-- The tail of `_is_system_healthy` after the cooldown-handling block: the
hard-stop check followed by the safe-mode success-rate check. -/
def healthyCore (cfg : ErrorConfig) (st : HealthState) : Bool :=
  if cfg.stop_on_consecutive_failures ≤ st.consecutive_failures then false
  else if cfg.safe_mode = true ∧ 0 < st.consecutive_failures ∧
      successRate st < 3 / 10 then false
  else true

/-- `ProactiveManager._is_system_healthy`; the second component is the state
after the cooldown-expiry reset side effect. -/
def isSystemHealthy (cfg : ErrorConfig) (st : HealthState) (now : ℚ) :
    Bool × HealthState :=
  if st.is_in_cooldown then
    match st.last_error_time with
    | some t =>
        if now < t + cfg.error_cooldown_minutes then (false, st)
        else
          let st2 := { st with is_in_cooldown := false, consecutive_failures := 0 }
          (healthyCore cfg st2, st2)
    | none => (healthyCore cfg st, st)
  else (healthyCore cfg st, st)

/-- The default error-handling configuration of `ProactiveManager.__init__`:
3 retry attempts, 5 second base delay, fallback enabled, hard stop at 10
consecutive failures, 30 minute cooldown, safe mode on. -/
def ecDefault : ErrorConfig :=
  { max_retry_attempts := 3
    retry_delay_seconds := 5
    fallback_enabled := true
    stop_on_consecutive_failures := 10
    error_cooldown_minutes := 30
    safe_mode := true }

/-- `ecDefault` with the hard-stop threshold configured down to 4. -/
def ecStop4 : ErrorConfig :=
  { ecDefault with stop_on_consecutive_failures := 4 }

/-- Health state at the default hard-stop threshold (10 consecutive failures),
in cooldown, last error at minute 0. -/
def hsHardStop : HealthState :=
  { consecutive_failures := 10
    last_error_time := some 0
    error_types := fun _ => 0
    is_in_cooldown := true
    total_attempts := 12
    total_successes := 0 }

/-- Health state with ten attempts, none successful, and no consecutive
failure currently recorded. -/
def hsNoFail : HealthState :=
  { consecutive_failures := 0
    last_error_time := none
    error_types := fun _ => 0
    is_in_cooldown := false
    total_attempts := 10
    total_successes := 0 }

/-- True on the `Except.error` constructor (a raised Python exception). -/
def isErr {α : Type} : Except String α → Bool
  | .error _ => true
  | .ok _ => false

/-- Result of `_retry_with_backoff`: a returned value, the `None` fallback
sentinel after exhaustion, or a re-raised exception. -/
inductive RetryOutcome (α : Type) where
  | success : α → RetryOutcome α
  | fallbackNone : RetryOutcome α
  | raised : String → RetryOutcome α
deriving DecidableEq

/-- The epilogue of `_retry_with_backoff` after the loop exits without a
success: return the `None` sentinel when fallback is enabled, otherwise
re-raise the last error (re-raising a missing error is Python's
`TypeError`). -/
def retryPost {α : Type} (cfg : ErrorConfig) (lastError : Option String) :
    RetryOutcome α :=
  if cfg.fallback_enabled then .fallbackNone
  else
    match lastError with
    | some e => .raised e
    | none => .raised "TypeError"

/-- The retry loop of `_retry_with_backoff`: the operation is modelled as a
function from the attempt number to a result or a raised exception; every
iteration bumps `total_attempts`, a success records a success and returns, a
failure on a non-final attempt continues (the backoff sleep has no modelled
effect), and a failure on the final attempt records exactly one error and
falls through to the epilogue. -/
def retryLoop {α : Type} (cfg : ErrorConfig) (f : Nat → Except String α) (now : ℚ) :
    HealthState → Nat → Nat → Option String → RetryOutcome α × HealthState
  | st, _, 0, lastError => (retryPost cfg lastError, st)
  | st, attempt, fuel + 1, _ =>
    let st1 := { st with total_attempts := st.total_attempts + 1 }
    match f attempt with
    | .ok v => (.success v, recordSuccess st1)
    | .error e =>
        if attempt < cfg.max_retry_attempts then
          retryLoop cfg f now st1 (attempt + 1) fuel (some e)
        else
          (retryPost cfg (some e), recordError cfg st1 e now)

/-- `ProactiveManager._retry_with_backoff`: run the loop from attempt 1 with
`max_retry_attempts` iterations available. -/
def retryWithBackoff {α : Type} (cfg : ErrorConfig) (st : HealthState)
    (f : Nat → Except String α) (now : ℚ) : RetryOutcome α × HealthState :=
  retryLoop cfg f now st 1 cfg.max_retry_attempts none

/-- Operation failing on attempts 1 and 2 and returning 7 on attempt 3. -/
def opThirdTry : Nat → Except String Nat :=
  fun i => if i = 3 then .ok 7 else .error "E"

/-- Operation failing on every attempt. -/
def opAlwaysFail : Nat → Except String Nat :=
  fun _ => .error "E"

/-- Targeting configuration of `_get_available_targets`: the per-pool enable
switches, the plugin-scoped allow-lists, and the adapter-scoped allow-lists
read from the host configuration. -/
structure TargetConfig where
  enable_private : Bool
  enable_group : Bool
  plugin_priv : List String
  plugin_group : List String
  adapter_priv : List String
  adapter_group : List String
deriving DecidableEq

/-- One pool branch of `_get_available_targets`: adapter list when the plugin
list is empty and the adapter list is not, else the plugin list when
non-empty, else nothing; entries are tagged with the pool label. -/
def poolCandidates (tag : String) (plugin adapter : List String) : List String :=
  if plugin = [] ∧ adapter ≠ [] then adapter.map (fun x => tag ++ x)
  else if plugin ≠ [] then plugin.map (fun x => tag ++ x)
  else []

/-- `ProactiveManager._get_available_targets`: the private and group pools,
each gated by its enable switch, concatenated. -/
def getAvailableTargets (cfg : TargetConfig) : List String :=
  (if cfg.enable_private then poolCandidates "private:" cfg.plugin_priv cfg.adapter_priv
   else []) ++
  (if cfg.enable_group then poolCandidates "group:" cfg.plugin_group cfg.adapter_group
   else [])

/-- Modelled from the spec: the three-tier pool policy stated in its words —
plugin-scoped allow-list if non-empty, else adapter-scoped allow-list if
non-empty, else the empty pool. -/
def poolSpecTiered (tag : String) (plugin adapter : List String) : List String :=
  if plugin ≠ [] then plugin.map (fun x => tag ++ x)
  else if adapter ≠ [] then adapter.map (fun x => tag ++ x)
  else []

/-- The delivery-outcome handling of `_attempt_proactive_speak`: the rate
limiter records the attempt's kind exactly when the send stage returned a
truthy success; the `None` sentinel, a falsy return, and a raised exception
leave the controller untouched. -/
def handleSendOutcome (k : TriggerKind) (outcome : RetryOutcome Bool)
    (st : TriggerState) (now : PyTime) : TriggerState :=
  match outcome with
  | .success true => recordTrigger k st now
  | _ => st

theorem checkMinInterval_false_iff (cfg : FreqConfig) (st : TriggerState) (now : PyTime) :
    checkMinInterval cfg st now = false ↔
      ∃ t, st.last_trigger_time = some t ∧ now.ts - t < cfg.min_interval_hours := by
  unfold checkMinInterval
  cases h : st.last_trigger_time with
  | none => simp
  | some t =>
      constructor
      · intro hfalse
        refine ⟨t, rfl, ?_⟩
        by_contra hlt
        simp [if_neg hlt] at hfalse
      · rintro ⟨u, hu, hlt⟩
        cases hu
        simp [if_pos hlt]

theorem checkNewDay_same_day (st : TriggerState) (now : PyTime)
    (hday : st.today = now.date) : checkNewDay st now = st := by
  simp [checkNewDay, hday]

/-- Shared characterization of a failed `can_trigger_*` check on a same-day
record: false exactly when one of the three gates fails. -/
theorem canTrigger_false_char (cfg : FreqConfig) (k : TriggerKind) (st : TriggerState)
    (now : PyTime) (hday : st.today = now.date) :
    (canTrigger cfg k st now).1 = false ↔
      capOf cfg k ≤ countToday k st ∨
      cfg.max_daily_triggers ≤ st.total_triggers_today ∨
      ∃ t, st.last_trigger_time = some t ∧ now.ts - t < cfg.min_interval_hours := by
  have hstep := checkNewDay_same_day st now hday
  rw [← checkMinInterval_false_iff cfg st now]
  cases k <;>
    · simp only [canTrigger, canTriggerMood, canTriggerRandom, hstep, capOf, countToday]
      split_ifs with h1 h2 h3 <;> simp_all

theorem checkNewDay_today (st : TriggerState) (now : PyTime) :
    (checkNewDay st now).today = now.date := by
  by_cases hd : st.today = now.date <;> simp [checkNewDay, hd, createNewDayState]

theorem canTrigger_roll (cfg : FreqConfig) (k : TriggerKind) (st : TriggerState)
    (now : PyTime) :
    canTrigger cfg k st now = canTrigger cfg k (checkNewDay st now) now := by
  by_cases hd : st.today = now.date
  · rw [checkNewDay_same_day st now hd]
  · have h1 : checkNewDay st now = createNewDayState now.date := by
      simp [checkNewDay, hd]
    have h2 : checkNewDay (createNewDayState now.date) now = createNewDayState now.date := by
      simp [checkNewDay, createNewDayState]
    cases k <;> simp only [canTrigger, canTriggerMood, canTriggerRandom, h1, h2]

/-- Claim C1: for every rate-limiter state and kind K, canTrigger(K) returns
false if and only if, on the record effective today (the stored record after
the date rollover), the per-kind count is at or above the per-kind daily cap,
or the total count is at or above the global daily cap, or the elapsed time
since the last trigger of any kind is less than the configured minimum
interval; otherwise it returns true. -/
theorem canTrigger_false_iff (cfg : FreqConfig) (k : TriggerKind) (st : TriggerState)
    (now : PyTime) :
    (canTrigger cfg k st now).1 = false ↔
      capOf cfg k ≤ countToday k (checkNewDay st now) ∨
      cfg.max_daily_triggers ≤ (checkNewDay st now).total_triggers_today ∨
      ∃ t, (checkNewDay st now).last_trigger_time = some t ∧
        now.ts - t < cfg.min_interval_hours := by
  rw [canTrigger_roll]
  exact canTrigger_false_char cfg k (checkNewDay st now) now (checkNewDay_today st now)

theorem checkNewDay_new_day (st : TriggerState) (now : PyTime)
    (h : st.today ≠ now.date) : checkNewDay st now = createNewDayState now.date := by
  simp [checkNewDay, h]

theorem checkNewDay_create (d : Nat) (now : PyTime) (h : d = now.date) :
    checkNewDay (createNewDayState d) now = createNewDayState d := by
  simp [checkNewDay, createNewDayState, h]

/-- Claim C2: whenever the stored date differs from the current date, each of
canTrigger, recordTrigger and dailySummary first replaces the record with a
fresh zeroed record for the new date before evaluating; in particular the
blocked example record (total 5, global cap 5) blocks at its own date 0 but
yields canTrigger true for both kinds once the clock reads date 1. -/
theorem rollover_resets (cfg : FreqConfig) (k : TriggerKind) (st : TriggerState)
    (now : PyTime) (h : st.today ≠ now.date) :
    checkNewDay st now = createNewDayState now.date ∧
    canTrigger cfg k st now = canTrigger cfg k (createNewDayState now.date) now ∧
    recordTrigger k st now = recordTrigger k (createNewDayState now.date) now ∧
    getDailySummary cfg st now = getDailySummary cfg (createNewDayState now.date) now ∧
    (∀ k2, (canTrigger fcDefault k2 stBlocked ⟨0, 25⟩).1 = false) ∧
    (∀ k2, (canTrigger fcDefault k2 stBlocked ⟨1, 25⟩).1 = true) := by
  have hroll := checkNewDay_new_day st now h
  have hfix := checkNewDay_create now.date now rfl
  refine ⟨hroll, ?_, ?_, ?_, ?_, ?_⟩
  · cases k <;>
      simp only [canTrigger, canTriggerMood, canTriggerRandom, hroll, hfix]
  · cases k <;>
      simp only [recordTrigger, recordMoodTrigger, recordRandomTrigger, hroll, hfix]
  · simp only [getDailySummary, hroll, hfix]
  · intro k2; cases k2 <;> decide
  · intro k2; cases k2 <;> decide

/-- Witness for C2: a record dated 0 on a clock reading date 1 rolls over, and
the previously blocking record then allows a mood trigger. -/
theorem rollover_resets_witness :
    (canTrigger fcDefault .mood stBlocked ⟨1, 25⟩).1 = true :=
  (rollover_resets fcDefault .mood stBlocked ⟨1, 25⟩ (by decide)).2.2.2.2.2 .mood

theorem recordTrigger_same_day_fields (k2 : TriggerKind) (st : TriggerState)
    (now : PyTime) (hday : st.today = now.date) :
    (recordTrigger k2 st now).today = st.today ∧
    (recordTrigger k2 st now).total_triggers_today = st.total_triggers_today + 1 ∧
    (recordTrigger k2 st now).last_trigger_time = some now.ts ∧
    countToday .mood st ≤ countToday .mood (recordTrigger k2 st now) ∧
    countToday .random st ≤ countToday .random (recordTrigger k2 st now) := by
  have hstep := checkNewDay_same_day st now hday
  cases k2 <;>
    simp [recordTrigger, recordMoodTrigger, recordRandomTrigger, hstep, countToday]

/-- Claim C8: within a single day, canTrigger is monotone under recording:
whenever the stored timestamps are not in the future and canTrigger(K) is
false, it stays false after any recordTrigger of either kind at the same
instant. -/
theorem canTrigger_monotone_record (cfg : FreqConfig) (k k2 : TriggerKind)
    (st : TriggerState) (now : PyTime)
    (hday : st.today = now.date)
    (hpast : ∀ t, st.last_trigger_time = some t → t ≤ now.ts)
    (hfalse : (canTrigger cfg k st now).1 = false) :
    (canTrigger cfg k (recordTrigger k2 st now) now).1 = false := by
  obtain ⟨hd, ht, hl, hm, hr⟩ := recordTrigger_same_day_fields k2 st now hday
  rw [canTrigger_false_char cfg k st now hday] at hfalse
  rw [canTrigger_false_char cfg k (recordTrigger k2 st now) now (hd.trans hday)]
  have hcount : countToday k st ≤ countToday k (recordTrigger k2 st now) := by
    cases k
    · exact hm
    · exact hr
  rcases hfalse with h | h | ⟨t, hsome, hlt⟩
  · exact Or.inl (le_trans h hcount)
  · exact Or.inr (Or.inl (by omega))
  · refine Or.inr (Or.inr ⟨now.ts, hl, ?_⟩)
    have h0 : (0 : ℚ) ≤ now.ts - t := by
      have := hpast t hsome
      linarith
    have hpos : (0 : ℚ) < cfg.min_interval_hours := lt_of_le_of_lt h0 hlt
    simpa using hpos

/-- Witness for C8: the blocked example record is blocked at its own date, and
stays blocked after recording a random trigger at the same instant. -/
theorem canTrigger_monotone_record_witness :
    (canTrigger fcDefault .mood (recordTrigger .random stBlocked ⟨0, 25⟩) ⟨0, 25⟩).1 = false := by
  refine canTrigger_monotone_record fcDefault .mood .random stBlocked ⟨0, 25⟩ rfl ?_ (by decide)
  intro t ht
  have hzero : t = 0 := by
    have hsome : (some 0 : Option ℚ) = some t := ht
    exact (Option.some_inj.mp hsome).symm
  rw [hzero]
  norm_num

theorem counterInv_create (d : Nat) : counterInv (createNewDayState d) := by
  simp [counterInv, createNewDayState]

theorem counterInv_checkNewDay (st : TriggerState) (now : PyTime)
    (h : counterInv st) : counterInv (checkNewDay st now) := by
  by_cases hd : st.today ≠ now.date
  · simp [checkNewDay, hd, counterInv, createNewDayState]
  · simpa [checkNewDay, hd] using h

theorem getDailySummary_snd (cfg : FreqConfig) (st : TriggerState) (now : PyTime) :
    (getDailySummary cfg st now).2 = checkNewDay st now := rfl

theorem canTrigger_snd (cfg : FreqConfig) (k : TriggerKind) (st : TriggerState)
    (now : PyTime) : (canTrigger cfg k st now).2 = checkNewDay st now := by
  cases k <;>
    · simp only [canTrigger, canTriggerMood, canTriggerRandom]
      split_ifs <;> rfl

/-- Claim C10: every TriggerController operation preserves the invariant that
the total-today counter equals the sum of the mood-today and random-today
counters, for every state reachable from a freshly created day record. -/
theorem trigger_counter_invariant (cfg : FreqConfig) (st : TriggerState)
    (h : Reachable cfg st) : counterInv st := by
  induction h with
  | create d => exact counterInv_create d
  | canTrig k now hr ih =>
      rw [canTrigger_snd]
      exact counterInv_checkNewDay _ _ ih
  | record k now hr ih =>
      have h1 := counterInv_checkNewDay _ now ih
      cases k <;>
        · simp only [recordTrigger, recordMoodTrigger, recordRandomTrigger,
            counterInv] at h1 ⊢
          omega
  | summary now hr ih =>
      rw [getDailySummary_snd]
      exact counterInv_checkNewDay _ _ ih

/-- Witness for C10: the invariant holds on the freshly created day record. -/
theorem trigger_counter_invariant_witness : counterInv (createNewDayState 0) :=
  trigger_counter_invariant fcDefault (createNewDayState 0) (Reachable.create 0)

/-- Counterexample to claim C3 as stated: a state at the default hard-stop
threshold (10 consecutive failures) whose cooldown duration has elapsed is
reported healthy, because the cooldown-expiry branch resets the failure count
before the hard-stop check runs. -/
theorem hardstop_cooldown_counterexample :
    ecDefault.stop_on_consecutive_failures ≤ hsHardStop.consecutive_failures ∧
    (isSystemHealthy ecDefault hsHardStop 30).1 = true := by
  constructor
  · decide
  · norm_num [isSystemHealthy, hsHardStop, ecDefault, healthyCore, successRate]

/-- Claim C3 (amended): when the consecutive-failure count has reached the
hard-stop threshold, the health check reports unhealthy, unless the state is
in cooldown with a recorded last-error time whose cooldown duration has
already elapsed — in that case the check first resets the cooldown flag and
the failure count and may report healthy. -/
theorem hardstop_unhealthy_unless_reset (cfg : ErrorConfig) (st : HealthState)
    (now : ℚ)
    (hstop : cfg.stop_on_consecutive_failures ≤ st.consecutive_failures)
    (hnoreset : ¬(st.is_in_cooldown = true ∧
      ∃ t, st.last_error_time = some t ∧ t + cfg.error_cooldown_minutes ≤ now)) :
    (isSystemHealthy cfg st now).1 = false := by
  have hcore : healthyCore cfg st = false := by
    simp [healthyCore, hstop]
  unfold isSystemHealthy
  by_cases hcd : st.is_in_cooldown
  · cases hlet : st.last_error_time with
    | none => simp [hcd, hlet, hcore]
    | some t =>
        by_cases hlt : now < t + cfg.error_cooldown_minutes
        · simp [hcd, hlet, hlt]
        · exact absurd ⟨hcd, t, hlet, by linarith [not_lt.mp hlt]⟩ hnoreset
  · simp [hcd, hcore]

/-- Witness for the amended C3: at the hard-stop threshold and still inside
the cooldown window, the check reports unhealthy. -/
theorem hardstop_unhealthy_unless_reset_witness :
    (isSystemHealthy ecDefault hsHardStop 10).1 = false := by
  refine hardstop_unhealthy_unless_reset ecDefault hsHardStop 10 (by decide) ?_
  rintro ⟨-, t, ht, habs⟩
  have hzero : t = 0 := by
    have hsome : (some 0 : Option ℚ) = some t := ht
    exact (Option.some_inj.mp hsome).symm
  rw [hzero] at habs
  norm_num [ecDefault] at habs

/-- Counterexample to claim C6 as stated: with the hard-stop threshold
configured to 4, four consecutive recordError calls from the initial state
reach the hard-stop threshold with the cooldown flag still clear, so the
cooldown-entry point (the hard-coded constant 5) is neither configured nor
lower than the configured hard-stop threshold. -/
theorem cooldown_entry_counterexample :
    ecStop4.stop_on_consecutive_failures ≤
      (recordError ecStop4 (recordError ecStop4 (recordError ecStop4
        (recordError ecStop4 healthInit "E" 0) "E" 0) "E" 0) "E" 0).consecutive_failures ∧
    (recordError ecStop4 (recordError ecStop4 (recordError ecStop4
      (recordError ecStop4 healthInit "E" 0) "E" 0) "E" 0) "E" 0).is_in_cooldown = false := by
  constructor
  · decide
  · decide

/-- Claim C6 (amended): recordError increments the consecutive-failure count
and the per-category error tally, stamps the last-error time, and sets the
cooldown flag exactly when the incremented count reaches the hard-coded
constant 5 — a threshold independent of the configured hard-stop threshold,
but fixed rather than configured, and lower than the hard-stop threshold only
when the latter is configured above 5 (as its default 10 is). -/
theorem recordError_spec (cfg : ErrorConfig) (st : HealthState) (e : String)
    (now : ℚ) :
    (recordError cfg st e now).consecutive_failures = st.consecutive_failures + 1 ∧
    (recordError cfg st e now).last_error_time = some now ∧
    (recordError cfg st e now).error_types =
      (fun k => if k = e then st.error_types k + 1 else st.error_types k) ∧
    (recordError cfg st e now).is_in_cooldown =
      (decide (5 ≤ st.consecutive_failures + 1) || st.is_in_cooldown) ∧
    (recordError cfg st e now).total_attempts = st.total_attempts ∧
    (recordError cfg st e now).total_successes = st.total_successes := by
  refine ⟨rfl, rfl, rfl, ?_, rfl, rfl⟩
  simp only [recordError]
  by_cases h5 : 5 ≤ st.consecutive_failures + 1 <;> simp [h5]

/-- Counterexample to claim C7 as stated: with safe mode on, ten attempts made
and none successful (lifetime success rate 0 < 0.3), the health check still
reports healthy because the safe-mode branch only runs when the
consecutive-failure count is positive, not when an attempt has been made. -/
theorem safe_mode_gate_counterexample :
    ecDefault.safe_mode = true ∧
    1 ≤ hsNoFail.total_attempts ∧
    successRate hsNoFail < 3 / 10 ∧
    (isSystemHealthy ecDefault hsNoFail 0).1 = true := by
  refine ⟨rfl, by decide, ?_, ?_⟩
  · norm_num [successRate, hsNoFail]
  · norm_num [isSystemHealthy, hsNoFail, ecDefault, healthyCore, successRate]

/-- Claim C7 (amended): whenever safe mode is enabled, the state is not in
cooldown, and the consecutive-failure count is positive, the health check
reports unhealthy if the lifetime success rate (successes over
max(attempts, 1)) is below the fixed floor 0.3. -/
theorem safe_mode_low_rate_unhealthy (cfg : ErrorConfig) (st : HealthState)
    (now : ℚ)
    (hsafe : cfg.safe_mode = true)
    (hcd : st.is_in_cooldown = false)
    (hcf : 0 < st.consecutive_failures)
    (hrate : successRate st < 3 / 10) :
    (isSystemHealthy cfg st now).1 = false := by
  have hcore : healthyCore cfg st = false := by
    unfold healthyCore
    by_cases hstop : cfg.stop_on_consecutive_failures ≤ st.consecutive_failures
    · simp [hstop]
    · simp [hstop, hsafe, hcf, hrate]
  simp [isSystemHealthy, hcd, hcore]

/-- Witness for the amended C7: one consecutive failure out of ten attempts
with no success reports unhealthy under safe mode. -/
theorem safe_mode_low_rate_unhealthy_witness :
    (isSystemHealthy ecDefault { hsNoFail with consecutive_failures := 1 } 0).1 = false := by
  refine safe_mode_low_rate_unhealthy ecDefault _ 0 rfl rfl (by decide) ?_
  norm_num [successRate, hsNoFail]

theorem retryLoop_step {α : Type} (cfg : ErrorConfig) (f : Nat → Except String α)
    (now : ℚ) (st : HealthState) (attempt fuel : Nat) (le : Option String) :
    retryLoop cfg f now st attempt (fuel + 1) le =
      (match f attempt with
       | .ok v =>
           (.success v,
            recordSuccess { st with total_attempts := st.total_attempts + 1 })
       | .error e =>
           if attempt < cfg.max_retry_attempts then
             retryLoop cfg f now { st with total_attempts := st.total_attempts + 1 }
               (attempt + 1) fuel (some e)
           else
             (retryPost cfg (some e),
              recordError cfg { st with total_attempts := st.total_attempts + 1 } e now)) :=
  rfl

theorem retryLoop_success {α : Type} (cfg : ErrorConfig) (f : Nat → Except String α)
    (now : ℚ) (v : α) :
    ∀ (n : Nat) (st : HealthState) (a : Nat) (le : Option String),
      (∀ i, a ≤ i → i < a + n → isErr (f i) = true) →
      (∀ i, a ≤ i → i < a + n → i < cfg.max_retry_attempts) →
      f (a + n) = .ok v →
      retryLoop cfg f now st a (n + 1) le =
        (.success v,
         recordSuccess { st with total_attempts := st.total_attempts + (n + 1) }) := by
  intro n
  induction n with
  | zero =>
      intro st a le hfail hin hok
      have hok2 : f a = .ok v := by simpa using hok
      rw [retryLoop_step, hok2]
  | succ n ih =>
      intro st a le hfail hin hok
      have hfa : isErr (f a) = true := hfail a (le_refl a) (by omega)
      obtain ⟨e, he⟩ : ∃ e, f a = .error e := by
        cases hfe : f a with
        | ok w => rw [hfe] at hfa; simp [isErr] at hfa
        | error e => exact ⟨e, rfl⟩
      have ha : a < cfg.max_retry_attempts := hin a (le_refl a) (by omega)
      have hfail2 : ∀ i, a + 1 ≤ i → i < (a + 1) + n → isErr (f i) = true := by
        intro i h1 h2
        exact hfail i (by omega) (by omega)
      have hin2 : ∀ i, a + 1 ≤ i → i < (a + 1) + n → i < cfg.max_retry_attempts := by
        intro i h1 h2
        exact hin i (by omega) (by omega)
      have hok2 : f ((a + 1) + n) = .ok v := by
        have harith : (a + 1) + n = a + (n + 1) := by omega
        rw [harith]
        exact hok
      rw [retryLoop_step, he]
      simp only [ha, if_true]
      rw [ih { st with total_attempts := st.total_attempts + 1 } (a + 1) (some e)
        hfail2 hin2 hok2]
      have harith2 : st.total_attempts + 1 + (n + 1) = st.total_attempts + (n + 1 + 1) := by
        omega
      simp [recordSuccess, harith2]

theorem retryLoop_allfail {α : Type} (cfg : ErrorConfig) (f : Nat → Except String α)
    (now : ℚ) :
    ∀ (n : Nat) (st : HealthState) (a : Nat) (le : Option String),
      (∀ i, a ≤ i → i ≤ a + n → isErr (f i) = true) →
      a + n = cfg.max_retry_attempts →
      ∃ e, f (a + n) = .error e ∧
        retryLoop cfg f now st a (n + 1) le =
          (retryPost cfg (some e),
           recordError cfg { st with total_attempts := st.total_attempts + (n + 1) }
             e now) := by
  intro n
  induction n with
  | zero =>
      intro st a le hfail hmax
      have hfa : isErr (f a) = true := hfail a (le_refl a) (by omega)
      obtain ⟨e, he⟩ : ∃ e, f a = .error e := by
        cases hfe : f a with
        | ok w => rw [hfe] at hfa; simp [isErr] at hfa
        | error e => exact ⟨e, rfl⟩
      have hna : ¬ a < cfg.max_retry_attempts := by omega
      refine ⟨e, by simpa using he, ?_⟩
      rw [retryLoop_step, he]
      simp only [hna, if_false]
  | succ n ih =>
      intro st a le hfail hmax
      have hfa : isErr (f a) = true := hfail a (le_refl a) (by omega)
      obtain ⟨e0, he0⟩ : ∃ e, f a = .error e := by
        cases hfe : f a with
        | ok w => rw [hfe] at hfa; simp [isErr] at hfa
        | error e => exact ⟨e, rfl⟩
      have ha : a < cfg.max_retry_attempts := by omega
      have hfail2 : ∀ i, a + 1 ≤ i → i ≤ (a + 1) + n → isErr (f i) = true := by
        intro i h1 h2
        exact hfail i (by omega) (by omega)
      have hmax2 : (a + 1) + n = cfg.max_retry_attempts := by omega
      obtain ⟨e, hee, heq⟩ := ih { st with total_attempts := st.total_attempts + 1 }
        (a + 1) (some e0) hfail2 hmax2
      refine ⟨e, ?_, ?_⟩
      · have harith : a + (n + 1) = (a + 1) + n := by omega
        rw [harith]
        exact hee
      · rw [retryLoop_step, he0]
        simp only [ha, if_true]
        rw [heq]
        have harith2 : st.total_attempts + 1 + (n + 1) = st.total_attempts + (n + 1 + 1) := by
          omega
        simp [harith2]

/-- Claim C4: with at least one attempt configured, an operation that fails
the first N-1 calls and succeeds on the Nth makes the retry executor return
the success value with no error reported to the health tracker (error tallies
and last-error time untouched); an operation that fails all N calls makes it
report exactly one error (a single recordError on the attempt-counted state)
and return the None sentinel when the fallback policy is enabled. -/
theorem retry_spec {α : Type} (cfg : ErrorConfig) (st : HealthState)
    (f : Nat → Except String α) (now : ℚ)
    (hmax : 1 ≤ cfg.max_retry_attempts) :
    (∀ v, (∀ i, 1 ≤ i → i < cfg.max_retry_attempts → isErr (f i) = true) →
        f cfg.max_retry_attempts = .ok v →
        retryWithBackoff cfg st f now =
          (.success v,
           recordSuccess
             { st with total_attempts := st.total_attempts + cfg.max_retry_attempts }) ∧
        (retryWithBackoff cfg st f now).2.error_types = st.error_types ∧
        (retryWithBackoff cfg st f now).2.last_error_time = st.last_error_time) ∧
    (cfg.fallback_enabled = true →
      (∀ i, 1 ≤ i → i ≤ cfg.max_retry_attempts → isErr (f i) = true) →
      ∃ e, f cfg.max_retry_attempts = .error e ∧
        retryWithBackoff cfg st f now =
          (.fallbackNone,
           recordError cfg
             { st with total_attempts := st.total_attempts + cfg.max_retry_attempts }
             e now)) := by
  obtain ⟨n, hn⟩ : ∃ n, cfg.max_retry_attempts = n + 1 := ⟨cfg.max_retry_attempts - 1, by omega⟩
  have hone : 1 + n = cfg.max_retry_attempts := by omega
  constructor
  · intro v hfail hok
    have heq := retryLoop_success cfg f now v n st 1 none
      (by intro i h1 h2; exact hfail i h1 (by omega))
      (by intro i h1 h2; omega)
      (by rw [hone]; exact hok)
    unfold retryWithBackoff
    rw [hn]
    rw [heq]
    exact ⟨rfl, rfl, rfl⟩
  · intro hfb hfail
    obtain ⟨e, hee, heq⟩ := retryLoop_allfail cfg f now n st 1 none
      (by intro i h1 h2; exact hfail i h1 (by omega))
      hone
    refine ⟨e, by rw [← hone]; exact hee, ?_⟩
    unfold retryWithBackoff
    rw [hn]
    rw [heq]
    have hpost : (retryPost cfg (some e) : RetryOutcome α) = .fallbackNone := by
      simp [retryPost, hfb]
    rw [hpost]

/-- Witness for C4: with the default three attempts, an operation succeeding
only on the third attempt returns its value, and an always-failing operation
returns the None sentinel. -/
theorem retry_spec_witness :
    retryWithBackoff ecDefault healthInit opThirdTry 0 =
      (.success 7,
       recordSuccess
         { healthInit with
           total_attempts := healthInit.total_attempts + ecDefault.max_retry_attempts }) ∧
    (retryWithBackoff ecDefault healthInit opAlwaysFail 0).1 = RetryOutcome.fallbackNone := by
  constructor
  · refine ((retry_spec ecDefault healthInit opThirdTry 0 (by decide)).1 7 ?_ rfl).1
    intro i h1 h2
    have hcase : i = 1 ∨ i = 2 := by
      have : i < 3 := h2
      omega
    rcases hcase with h | h <;> subst h <;> rfl
  · obtain ⟨e, hee, heq⟩ := (retry_spec ecDefault healthInit opAlwaysFail 0 (by decide)).2
      rfl (by intro i h1 h2; rfl)
    rw [heq]

/-- Claim C5: each target pool uses the plugin allow-list whenever it is
non-empty, otherwise the adapter allow-list whenever that is non-empty,
otherwise it is empty — the code branch agrees with the spec's three-tier
policy on all inputs, and the spec's three concrete examples hold; a kind
whose two lists are empty contributes no targets to the merged list. -/
theorem pool_resolution :
    (∀ tag plugin adapter,
        poolCandidates tag plugin adapter = poolSpecTiered tag plugin adapter) ∧
    poolCandidates "private:" ["A"] ["B", "C"] = ["private:A"] ∧
    poolCandidates "private:" [] ["B"] = ["private:B"] ∧
    poolCandidates "private:" [] ([] : List String) = [] ∧
    getAvailableTargets
      { enable_private := true
        enable_group := true
        plugin_priv := []
        plugin_group := ["G"]
        adapter_priv := []
        adapter_group := [] } = ["group:G"] := by
  refine ⟨?_, rfl, rfl, rfl, rfl⟩
  intro tag plugin adapter
  unfold poolCandidates poolSpecTiered
  by_cases hp : plugin = []
  · by_cases ha : adapter = [] <;> simp [hp, ha]
  · simp [hp]

/-- Claim C9: in the delivery-outcome step of a pipeline attempt, the rate
limiter's recordTrigger for the attempt's kind runs exactly when the send
stage returned genuine success; on a falsy result, the None sentinel, or a
raised exception, no rate-limiter counter or timestamp is mutated. -/
theorem record_iff_send_success (k : TriggerKind) (outcome : RetryOutcome Bool)
    (st : TriggerState) (now : PyTime) :
    (outcome = .success true →
        handleSendOutcome k outcome st now = recordTrigger k st now) ∧
    (outcome ≠ .success true → handleSendOutcome k outcome st now = st) := by
  constructor
  · intro h
    subst h
    rfl
  · intro h
    cases outcome with
    | success b =>
        cases b with
        | true => exact absurd rfl h
        | false => rfl
    | fallbackNone => rfl
    | raised e => rfl

/-- Witness for C9: genuine success records the mood trigger; the sentinel and
a falsy send result leave the record unchanged. -/
theorem record_iff_send_success_witness :
    handleSendOutcome .mood (.success true) stBlocked ⟨0, 25⟩ =
      recordTrigger .mood stBlocked ⟨0, 25⟩ ∧
    handleSendOutcome .mood .fallbackNone stBlocked ⟨0, 25⟩ = stBlocked ∧
    handleSendOutcome .mood (.success false) stBlocked ⟨0, 25⟩ = stBlocked :=
  ⟨(record_iff_send_success .mood (.success true) stBlocked ⟨0, 25⟩).1 rfl,
   (record_iff_send_success .mood .fallbackNone stBlocked ⟨0, 25⟩).2 (by decide),
   (record_iff_send_success .mood (.success false) stBlocked ⟨0, 25⟩).2 (by decide)⟩
